import Mathlib

/-!
Shallow embedding of the TrafficWatch polling-and-aggregation engine
(`src/server.js` v2 and the v3 crossings monitor) and proofs of the
specified properties.

JavaScript numbers are modelled as rationals (`ℚ`) where the source works
with possibly fractional quantities, as integers (`Int`) for the rounded
minute values stored in readings, and as naturals (`Nat`) for the second
counts delivered by the routing provider.  `Math.round` on a nonnegative
finite number is `⌊x + 1/2⌋` (JavaScript rounds halves toward +∞).
Nullable JavaScript values are modelled with `Option`; a thrown exception
that the source catches is modelled by an `Option`-valued input describing
the outcome of the fallible call.
-/

/-- JavaScript `Math.round` on a finite number: round half toward +∞. -/
def jsRound (q : ℚ) : Int := ⌊q + 1 / 2⌋

/-- Severity levels of the classifier, the strings 'LOW' / 'MODERATE' /
'HIGH' in the source. -/
inductive Severity where
  | LOW
  | MODERATE
  | HIGH
deriving DecidableEq, Repr, Fintype

/-- The string written for a severity level in the CSV log. -/
def sevString : Severity → String
  | .LOW => "LOW"
  | .MODERATE => "MODERATE"
  | .HIGH => "HIGH"

/-- The array `levels = ['LOW','MODERATE','HIGH']` of `buildMainPage`. -/
def levels : List Severity := [.LOW, .MODERATE, .HIGH]

/-- Rank of a severity under the order LOW < MODERATE < HIGH. -/
def sevRank : Severity → Nat
  | .LOW => 0
  | .MODERATE => 1
  | .HIGH => 2

/-- `trafficLevel(delay)` from the source: `delay <= 2` is LOW,
`delay <= 10` is MODERATE, anything larger is HIGH. -/
def trafficLevel (delay : Int) : Severity :=
  if delay ≤ 2 then .LOW
  else if delay ≤ 10 then .MODERATE
  else .HIGH

/-- `levels[Math.max(levels.indexOf(a), levels.indexOf(b))]` from
`buildMainPage`: the worst severity of two routes. -/
def worstLevel (a b : Severity) : Option Severity :=
  levels[max (levels.indexOf a) (levels.indexOf b)]?

lemma sevRank_trafficLevel (d : Int) :
    sevRank (trafficLevel d) = if d ≤ 2 then 0 else if d ≤ 10 then 1 else 2 := by
  unfold trafficLevel
  split_ifs <;> rfl

/-- C1: for every integer delay `d`, `trafficLevel d` is LOW iff `d ≤ 2`,
MODERATE iff `3 ≤ d ≤ 10`, HIGH iff `d > 10`, and the severity is
monotonically non-decreasing in `d` under LOW < MODERATE < HIGH. -/
theorem trafficLevel_thresholds_monotone (d d' : Int) (hdd : d ≤ d') :
    (trafficLevel d = .LOW ↔ d ≤ 2) ∧
    (trafficLevel d = .MODERATE ↔ 3 ≤ d ∧ d ≤ 10) ∧
    (trafficLevel d = .HIGH ↔ 10 < d) ∧
    sevRank (trafficLevel d) ≤ sevRank (trafficLevel d') := by
  refine ⟨?_, ?_, ?_, ?_⟩
  · unfold trafficLevel
    split_ifs with h1 h2 <;> simp <;> omega
  · unfold trafficLevel
    split_ifs with h1 h2 <;> simp <;> omega
  · unfold trafficLevel
    split_ifs with h1 h2 <;> simp <;> omega
  · rw [sevRank_trafficLevel, sevRank_trafficLevel]
    split_ifs <;> omega

/-- Witness for the C1 theorem at `d = 1`, `d' = 5`. -/
theorem trafficLevel_thresholds_monotone_witness :
    (trafficLevel 1 = .LOW ↔ (1 : Int) ≤ 2) ∧
    (trafficLevel 1 = .MODERATE ↔ (3 : Int) ≤ 1 ∧ (1 : Int) ≤ 10) ∧
    (trafficLevel 1 = .HIGH ↔ (10 : Int) < 1) ∧
    sevRank (trafficLevel 1) ≤ sevRank (trafficLevel 5) :=
  trafficLevel_thresholds_monotone 1 5 (by decide)

/-- The `summary` object of the routing provider's first route.  The two
baseline fields are optional in the provider payload; second counts are
the nonnegative integers the provider delivers. -/
structure RouteSummary where
  travelTimeInSeconds : Nat
  noTrafficTravelTimeInSeconds : Option Nat
  historicTrafficTravelTimeInSeconds : Option Nat
  lengthInMeters : Nat
deriving DecidableEq, Repr

/-- The value returned by `fetchRoute`. -/
structure RouteResult where
  trafficMin : Int
  normalMin : Int
  distanceKm : ℚ
deriving DecidableEq, Repr

/-- `+(lengthInMeters / 1000).toFixed(1)`: kilometres rounded to one
decimal place (decimal formatting modelled as exact rounding). -/
def jsTenths (m : Nat) : ℚ := (jsRound ((m : ℚ) / 1000 * 10) : ℚ) / 10

/-- `fetchRoute` of the v3 monitor, after a successful provider call:
`normalMin` is `Math.round((historic ?? noTraffic ?? travelTime) / 60)`. -/
def fetchRoute_v3 (s : RouteSummary) : RouteResult :=
  { trafficMin := jsRound ((s.travelTimeInSeconds : ℚ) / 60)
    normalMin := jsRound
      (((s.historicTrafficTravelTimeInSeconds.getD
          (s.noTrafficTravelTimeInSeconds.getD s.travelTimeInSeconds) : Nat) : ℚ) / 60)
    distanceKm := jsTenths s.lengthInMeters }

/-- `fetchRoute` of `src/server.js`: `normalSec = noTraffic ?? travelTime`,
`freeFlowSec = historic ?? normalSec`, `normalMin = Math.round(freeFlowSec / 60)`. -/
def fetchRoute_v2 (s : RouteSummary) : RouteResult :=
  let trafficSec := s.travelTimeInSeconds
  let normalSec := s.noTrafficTravelTimeInSeconds.getD s.travelTimeInSeconds
  let freeFlowSec := s.historicTrafficTravelTimeInSeconds.getD normalSec
  { trafficMin := jsRound ((trafficSec : ℚ) / 60)
    normalMin := jsRound ((freeFlowSec : ℚ) / 60)
    distanceKm := jsTenths s.lengthInMeters }

/-- The `flowSegmentData` object of the speed provider (speeds may be
fractional km/h values). -/
structure FlowData where
  currentSpeed : ℚ
  freeFlowSpeed : ℚ
deriving DecidableEq, Repr

/-- The speed sample built by `fetchSpeed`.  `speedPct = none` models the
non-finite number (`Infinity` or `NaN`) that `Math.round((current /
freeFlow) * 100)` produces when `freeFlowSpeed` is zero. -/
structure SpeedSample where
  currentSpeed : Int
  freeFlowSpeed : Int
  speedPct : Option Int
deriving DecidableEq, Repr

/-- `fetchSpeed`: an input of `none` covers both a failed call (the
internal `catch` returns null) and a payload without `flowSegmentData`;
otherwise a sample is built with no guard on `freeFlowSpeed`. -/
def fetchSpeed (resp : Option FlowData) : Option SpeedSample :=
  match resp with
  | none => none
  | some fd =>
      some
        { currentSpeed := jsRound fd.currentSpeed
          freeFlowSpeed := jsRound fd.freeFlowSpeed
          speedPct :=
            if fd.freeFlowSpeed = 0 then none
            else some (jsRound (fd.currentSpeed / fd.freeFlowSpeed * 100)) }

/-- The weather snapshot cached by `fetchWeather`. -/
structure Weather where
  tempC : Int
  precipitation : ℚ
  windKmh : Int
  condition : String
  icon : String
deriving DecidableEq, Repr

/-- One reading pushed onto `readings[ci][ri]` by `checkAll` (the v3 row;
the v2 row is the same minus the optional speed and weather fields). -/
structure Reading where
  timestamp : String
  trafficMin : Int
  normalMin : Int
  distanceKm : ℚ
  delay : Int
  level : Severity
  speed : Option SpeedSample
  weather : Option Weather
deriving DecidableEq, Repr

/-- The row constructed in `checkAll` for a successful measurement:
`delay = Math.max(0, trafficMin - normalMin)`, `level = trafficLevel(delay)`. -/
def mkRow (timestamp : String) (result : RouteResult)
    (speed : Option SpeedSample) (weather : Option Weather) : Reading :=
  { timestamp := timestamp
    trafficMin := result.trafficMin
    normalMin := result.normalMin
    distanceKm := result.distanceKm
    delay := max 0 (result.trafficMin - result.normalMin)
    level := trafficLevel (max 0 (result.trafficMin - result.normalMin))
    speed := speed
    weather := weather }

/-- C5: the baseline minutes of a measurement follow the fallback chain
historical baseline, else static free-flow (no-traffic) time, else the
current-conditions time itself; when both baseline fields are absent the
measurement still succeeds and its delay resolves to zero.  Both
`fetchRoute` variants compute the same chain. -/
theorem fetchRoute_baseline_fallback (s : RouteSummary) :
    (∀ h, s.historicTrafficTravelTimeInSeconds = some h →
      (fetchRoute_v3 s).normalMin = jsRound ((h : ℚ) / 60)) ∧
    (∀ n, s.historicTrafficTravelTimeInSeconds = none →
      s.noTrafficTravelTimeInSeconds = some n →
      (fetchRoute_v3 s).normalMin = jsRound ((n : ℚ) / 60)) ∧
    (s.historicTrafficTravelTimeInSeconds = none →
      s.noTrafficTravelTimeInSeconds = none →
      (fetchRoute_v3 s).normalMin = (fetchRoute_v3 s).trafficMin ∧
      max 0 ((fetchRoute_v3 s).trafficMin - (fetchRoute_v3 s).normalMin) = 0) ∧
    (fetchRoute_v2 s).normalMin = (fetchRoute_v3 s).normalMin := by
  refine ⟨?_, ?_, ?_, ?_⟩
  · intro h hh
    simp [fetchRoute_v3, hh]
  · intro n hh hn
    simp [fetchRoute_v3, hh, hn]
  · intro hh hn
    simp [fetchRoute_v3, hh, hn]
  · cases hh : s.historicTrafficTravelTimeInSeconds with
    | none =>
        cases hn : s.noTrafficTravelTimeInSeconds with
        | none => simp [fetchRoute_v2, fetchRoute_v3, hh, hn]
        | some n => simp [fetchRoute_v2, fetchRoute_v3, hh, hn]
    | some h => simp [fetchRoute_v2, fetchRoute_v3, hh]

/-- Witness for the C5 theorem: with only the static free-flow field
present (540 s), both variants report a 9-minute baseline. -/
theorem fetchRoute_baseline_fallback_witness :
    (fetchRoute_v3 ⟨1020, some 540, none, 4200⟩).normalMin =
      jsRound ((540 : ℚ) / 60) ∧
    (fetchRoute_v2 ⟨1020, some 540, none, 4200⟩).normalMin =
      (fetchRoute_v3 ⟨1020, some 540, none, 4200⟩).normalMin :=
  ⟨(fetchRoute_baseline_fallback ⟨1020, some 540, none, 4200⟩).2.1 540 rfl rfl,
    (fetchRoute_baseline_fallback ⟨1020, some 540, none, 4200⟩).2.2.2⟩

/-- C10: with `freeFlowSpeed > 0` the sample's `speedPct` is
`Math.round(100 * currentSpeed / freeFlowSpeed)`; with `freeFlowSpeed = 0`
the division is unguarded and a sample with a non-finite percentage is
still returned instead of the null no-speed-data result. -/
theorem fetchSpeed_pct_no_zero_guard (fd : FlowData) :
    (0 < fd.freeFlowSpeed →
      fetchSpeed (some fd) =
        some
          { currentSpeed := jsRound fd.currentSpeed
            freeFlowSpeed := jsRound fd.freeFlowSpeed
            speedPct := some (jsRound (100 * fd.currentSpeed / fd.freeFlowSpeed)) }) ∧
    (fd.freeFlowSpeed = 0 →
      ∃ sample, fetchSpeed (some fd) = some sample ∧ sample.speedPct = none) := by
  constructor
  · intro hpos
    have hne : fd.freeFlowSpeed ≠ 0 := ne_of_gt hpos
    simp only [fetchSpeed, if_neg hne]
    have : fd.currentSpeed / fd.freeFlowSpeed * 100 =
        100 * fd.currentSpeed / fd.freeFlowSpeed := by
      field_simp
      ring
    rw [this]
  · intro hzero
    refine ⟨{ currentSpeed := jsRound fd.currentSpeed
              freeFlowSpeed := jsRound fd.freeFlowSpeed
              speedPct := none }, ?_, rfl⟩
    simp [fetchSpeed, hzero]

/-- Witness for the C10 theorem: 60 km/h current over 80 km/h free flow is
75 %, while a zero free-flow speed still yields a sample. -/
theorem fetchSpeed_pct_no_zero_guard_witness :
    fetchSpeed (some ⟨60, 80⟩) =
      some
        { currentSpeed := jsRound 60
          freeFlowSpeed := jsRound 80
          speedPct := some (jsRound (100 * 60 / 80)) } ∧
    ∃ sample, fetchSpeed (some ⟨60, 0⟩) = some sample ∧ sample.speedPct = none :=
  ⟨(fetchSpeed_pct_no_zero_guard ⟨60, 80⟩).1 (by norm_num),
    (fetchSpeed_pct_no_zero_guard ⟨60, 0⟩).2 rfl⟩

/-- C2: the delay stored in a reading is `max 0 (trafficMin - normalMin)`,
hence nonnegative, and it is clamped to `0` whenever the current time is
below the baseline. -/
theorem reading_delay_clamped (t : String) (res : RouteResult)
    (sp : Option SpeedSample) (w : Option Weather) :
    (mkRow t res sp w).delay = max 0 (res.trafficMin - res.normalMin) ∧
    0 ≤ (mkRow t res sp w).delay ∧
    (res.trafficMin < res.normalMin → (mkRow t res sp w).delay = 0) := by
  refine ⟨rfl, le_max_left _ _, fun h => ?_⟩
  simp only [mkRow]
  omega

/-- Witness for the C2 theorem: a measurement 3 minutes under baseline
yields delay 0. -/
theorem reading_delay_clamped_witness :
    (mkRow "2026-01-01T00:00:00.000Z" ⟨7, 10, 0⟩ none none).delay = 0 :=
  (reading_delay_clamped "2026-01-01T00:00:00.000Z" ⟨7, 10, 0⟩ none none).2.2
    (by decide)

/-- One bounded append of `checkAll`: `arr.push(row); if (arr.length >
cap) arr.shift();` — the source uses the literal capacity 1000 (v3) or
500 (v2). -/
def pushBounded (cap : Nat) (arr : List Reading) (row : Reading) : List Reading :=
  let arr2 := arr ++ [row]
  if cap < arr2.length then arr2.drop 1 else arr2

/-- The latest reading, `arr[arr.length - 1] || null` in the source. -/
def latest (arr : List Reading) : Option Reading := arr.getLast?

lemma pushBounded_length_le (cap : Nat) (arr : List Reading) (row : Reading)
    (hlen : arr.length ≤ cap) : (pushBounded cap arr row).length ≤ cap := by
  unfold pushBounded
  simp only [List.length_append, List.length_singleton]
  split_ifs with h
  · simp only [List.length_drop, List.length_append, List.length_singleton]
    omega
  · simp only [List.length_append, List.length_singleton]
    omega

lemma pushBounded_getLast? (cap : Nat) (arr : List Reading) (row : Reading)
    (hcap : 1 ≤ cap) : (pushBounded cap arr row).getLast? = some row := by
  simp only [pushBounded]
  split_ifs with h
  · cases arr with
    | nil => simp at h; omega
    | cons a as =>
        simp only [List.cons_append, List.drop_succ_cons, List.drop_zero]
        exact List.getLast?_concat _
  · exact List.getLast?_concat _

lemma foldl_pushBounded_no_evict (cap : Nat) (rows : List Reading) :
    ∀ init : List Reading, init.length + rows.length ≤ cap →
      List.foldl (pushBounded cap) init rows = init ++ rows := by
  induction rows with
  | nil => intro init _; simp
  | cons r rs ih =>
      intro init hle
      have hpush : pushBounded cap init r = init ++ [r] := by
        unfold pushBounded
        rw [if_neg]
        simp only [List.length_append, List.length_singleton]
        simp only [List.length_cons] at hle
        omega
      simp only [List.foldl_cons, hpush]
      rw [ih (init ++ [r]) (by simp only [List.length_append,
        List.length_singleton]; simp only [List.length_cons] at hle; omega)]
      simp

lemma foldl_pushBounded_full (cap : Nat) (rows : List Reading)
    (hrows : rows.length = cap + 1) :
    List.foldl (pushBounded cap) [] rows = rows.drop 1 := by
  have hne : rows ≠ [] := by
    intro h
    rw [h] at hrows
    simp at hrows
  have hsplit : rows.dropLast ++ [rows.getLast hne] = rows :=
    List.dropLast_append_getLast hne
  calc List.foldl (pushBounded cap) [] rows
      = List.foldl (pushBounded cap) []
          (rows.dropLast ++ [rows.getLast hne]) := by rw [hsplit]
    _ = pushBounded cap (List.foldl (pushBounded cap) [] rows.dropLast)
          (rows.getLast hne) := by rw [List.foldl_append]; rfl
    _ = pushBounded cap rows.dropLast (rows.getLast hne) := by
          rw [foldl_pushBounded_no_evict cap rows.dropLast []
            (by simp [List.length_dropLast, hrows])]
          simp
    _ = (rows.dropLast ++ [rows.getLast hne]).drop 1 := by
          unfold pushBounded
          rw [if_pos]
          simp only [List.length_append, List.length_singleton,
            List.length_dropLast, hrows]
          omega
    _ = rows.drop 1 := by rw [hsplit]

/-- C3: a per-route sequence at or below capacity stays at or below
capacity after a bounded append, and eviction is FIFO: capacity + 1
appends of pairwise distinct readings into an empty store leave exactly
the appends minus the first, so the first reading is gone and the last is
present. -/
theorem seriesStore_capacity_fifo (cap : Nat) (arr : List Reading)
    (row : Reading) (hlen : arr.length ≤ cap)
    (rows : List Reading) (hcap : 1 ≤ cap) (hrows : rows.length = cap + 1)
    (hnd : rows.Nodup) (first last : Reading)
    (hfirst : rows.head? = some first) (hlast : rows.getLast? = some last) :
    (pushBounded cap arr row).length ≤ cap ∧
    List.foldl (pushBounded cap) [] rows = rows.drop 1 ∧
    first ∉ List.foldl (pushBounded cap) [] rows ∧
    last ∈ List.foldl (pushBounded cap) [] rows := by
  have hfold := foldl_pushBounded_full cap rows hrows
  refine ⟨pushBounded_length_le cap arr row hlen, hfold, ?_, ?_⟩
  · rw [hfold]
    cases rows with
    | nil => simp at hfirst
    | cons r rs =>
        simp only [List.head?_cons, Option.some.injEq] at hfirst
        subst hfirst
        simp only [List.drop_succ_cons, List.drop_zero]
        exact (List.nodup_cons.mp hnd).1
  · rw [hfold]
    cases rows with
    | nil => simp at hlast
    | cons r rs =>
        cases rs with
        | nil =>
            simp at hrows
            omega
        | cons b bs =>
            simp only [List.getLast?_cons_cons] at hlast
            simp only [List.drop_succ_cons, List.drop_zero]
            exact List.mem_of_getLast?_eq_some hlast

/-- A sample reading used to exercise the store lemmas on concrete data. -/
def sampleReading (n : Int) : Reading :=
  { timestamp := "t"
    trafficMin := n
    normalMin := 0
    distanceKm := 0
    delay := 0
    level := .LOW
    speed := none
    weather := none }

/-- Witness for the C3 theorem at capacity 2 with three distinct
readings. -/
theorem seriesStore_capacity_fifo_witness :
    (pushBounded 2 [] (sampleReading 1)).length ≤ 2 ∧
    List.foldl (pushBounded 2) []
        [sampleReading 1, sampleReading 2, sampleReading 3] =
      [sampleReading 1, sampleReading 2, sampleReading 3].drop 1 ∧
    sampleReading 1 ∉ List.foldl (pushBounded 2) []
        [sampleReading 1, sampleReading 2, sampleReading 3] ∧
    sampleReading 3 ∈ List.foldl (pushBounded 2) []
        [sampleReading 1, sampleReading 2, sampleReading 3] :=
  seriesStore_capacity_fifo 2 [] (sampleReading 1) (by decide)
    [sampleReading 1, sampleReading 2, sampleReading 3] (by decide) (by decide)
    (by decide) (sampleReading 1) (sampleReading 3) (by decide) (by decide)

/-- The CSV header line written by `ensureCsv` in the v3 monitor. -/
def csvHeader : String :=
  "timestamp,crossing,route,traffic_min,normal_min,delay_min,traffic_level"

/-- Double-quote a string field as the CSV template does. -/
def quoteField (s : String) : String := "\"" ++ s ++ "\""

/-- The line written by `appendCsv` for one reading of a route:
`"timestamp","crossing","route",trafficMin,normalMin,delay,"level"`. -/
def csvRowLine (crossingName routeName : String) (row : Reading) : String :=
  quoteField row.timestamp ++ "," ++ quoteField crossingName ++ "," ++
    quoteField routeName ++ "," ++ toString row.trafficMin ++ "," ++
    toString row.normalMin ++ "," ++ toString row.delay ++ "," ++
    quoteField (sevString row.level)

/-- A durable log file as a list of newline-terminated lines; `none` means
the file does not exist yet. -/
def LogFile : Type := Option (List String)

/-- `ensureCsv` for one route: create the file with the header line only
when it does not exist. -/
def ensureCsv (file : LogFile) : LogFile :=
  match file with
  | none => some [csvHeader]
  | some ls => some ls

/-- `fs.appendFileSync`: append one line, creating the file if missing. -/
def appendLine (file : LogFile) (line : String) : LogFile :=
  match file with
  | none => some [line]
  | some ls => some (ls ++ [line])

/-- The mutable state of one route: the in-memory sequence
`readings[ci][ri]` and the route's durable log file. -/
structure RouteState where
  mem : List Reading
  file : LogFile

/-- Everything one iteration of the `checkAll` loop observes for one
route: the route's static names, the outcome of the awaited
`fetchRoute`/`fetchSpeed` pair (`fetch = none` models a rejected
`fetchRoute`, which fails the whole `Promise.all`; `fetchSpeed` itself
never rejects), the timestamp taken when building the row, and whether
the durable append succeeds (`csvOk = false` models a throwing
`fs.appendFileSync`, caught by the per-route `catch`). -/
structure RoutePollInput where
  crossingName : String
  routeName : String
  fetch : Option (RouteResult × Option SpeedSample)
  timestamp : String
  csvOk : Bool

/-- One iteration of the `checkAll` route loop (v3): on success push the
row (bounded at 1000), then append the CSV line; a failed append is
caught after the in-memory push has happened.  On a fetch failure the
route's state is untouched. -/
def routeStepFs (weather : Option Weather) (st : RouteState)
    (inp : RoutePollInput) : RouteState :=
  match inp.fetch with
  | none => st
  | some (result, speed) =>
      let row := mkRow inp.timestamp result speed weather
      { mem := pushBounded 1000 st.mem row
        file :=
          if inp.csvOk then
            appendLine st.file (csvRowLine inp.crossingName inp.routeName row)
          else st.file }

/-- One full `checkAll` cycle over all configured routes (flattened across
crossings, in loop order), with the weather snapshot fetched once at the
start of the cycle. -/
def checkAllCycle (weather : Option Weather) (states : List RouteState)
    (inputs : List RoutePollInput) : List RouteState :=
  List.zipWith (routeStepFs weather) states inputs

/-- Repeated polls of a single route across successive cycles, each with
that cycle's weather snapshot. -/
def runRoutePolls (st : RouteState)
    (polls : List (Option Weather × RoutePollInput)) : RouteState :=
  polls.foldl (fun s p => routeStepFs p.1 s p.2) st

lemma zipWith_getElem? {α β γ : Type} (f : α → β → γ) :
    ∀ (as : List α) (bs : List β) (i : Nat),
      (List.zipWith f as bs)[i]? =
        match as[i]?, bs[i]? with
        | some a, some b => some (f a b)
        | _, _ => none := by
  intro as
  induction as with
  | nil => intro bs i; simp
  | cons a as ih =>
      intro bs i
      cases bs with
      | nil => simp
      | cons b bs =>
          cases i with
          | zero => simp
          | succ j => simpa using ih bs j

/-- C4: within one cycle, failures are isolated per route.  If route `a`'s
upstream call fails while route `b`'s succeeds, the cycle leaves route
`a`'s state exactly as it was (no partial reading) while route `b`'s
in-memory sequence gains the new reading, which becomes its latest. -/
theorem checkAll_failure_isolated (w : Option Weather)
    (states : List RouteState) (inputs : List RoutePollInput) (a b : Nat)
    (sa sb : RouteState) (ia ib : RoutePollInput)
    (hsa : states[a]? = some sa) (hia : inputs[a]? = some ia)
    (hfa : ia.fetch = none)
    (hsb : states[b]? = some sb) (hib : inputs[b]? = some ib)
    (res : RouteResult) (sp : Option SpeedSample)
    (hfb : ib.fetch = some (res, sp)) :
    (checkAllCycle w states inputs)[a]? = some sa ∧
    ∃ sb', (checkAllCycle w states inputs)[b]? = some sb' ∧
      sb'.mem = pushBounded 1000 sb.mem (mkRow ib.timestamp res sp w) ∧
      latest sb'.mem = some (mkRow ib.timestamp res sp w) := by
  constructor
  · rw [checkAllCycle, zipWith_getElem?, hsa, hia]
    simp [routeStepFs, hfa]
  · refine ⟨routeStepFs w sb ib, ?_, ?_, ?_⟩
    · rw [checkAllCycle, zipWith_getElem?, hsb, hib]
    · simp [routeStepFs, hfb]
    · simp only [routeStepFs, hfb]
      exact pushBounded_getLast? 1000 sb.mem _ (by omega)

/-- Witness for the C4 theorem: a two-route cycle where route 0 fails and
route 1 succeeds. -/
theorem checkAll_failure_isolated_witness :
    (checkAllCycle none
        [{ mem := [sampleReading 9], file := none },
         { mem := [], file := none }]
        [{ crossingName := "c", routeName := "A", fetch := none,
           timestamp := "t1", csvOk := true },
         { crossingName := "c", routeName := "B",
           fetch := some (⟨12, 9, 0⟩, none), timestamp := "t1",
           csvOk := true }])[0]? =
      some { mem := [sampleReading 9], file := none } ∧
    ∃ sb', (checkAllCycle none
        [{ mem := [sampleReading 9], file := none },
         { mem := [], file := none }]
        [{ crossingName := "c", routeName := "A", fetch := none,
           timestamp := "t1", csvOk := true },
         { crossingName := "c", routeName := "B",
           fetch := some (⟨12, 9, 0⟩, none), timestamp := "t1",
           csvOk := true }])[1]? = some sb' ∧
      sb'.mem = pushBounded 1000 [] (mkRow "t1" ⟨12, 9, 0⟩ none none) ∧
      latest sb'.mem = some (mkRow "t1" ⟨12, 9, 0⟩ none none) :=
  checkAll_failure_isolated none _ _ 0 1
    { mem := [sampleReading 9], file := none }
    { mem := [], file := none }
    { crossingName := "c", routeName := "A", fetch := none,
      timestamp := "t1", csvOk := true }
    { crossingName := "c", routeName := "B",
      fetch := some (⟨12, 9, 0⟩, none), timestamp := "t1", csvOk := true }
    rfl rfl rfl rfl rfl ⟨12, 9, 0⟩ none rfl

/-- C8: a failed durable-log write never rolls back the in-memory append.
With `csvOk = false` the route still pushes the new reading (identically
to the successful-write path), the reading becomes the latest, and only
the file is left unchanged. -/
theorem persist_failure_keeps_memory_append (w : Option Weather)
    (st : RouteState) (inp : RoutePollInput)
    (res : RouteResult) (sp : Option SpeedSample)
    (hf : inp.fetch = some (res, sp)) (hcsv : inp.csvOk = false) :
    (routeStepFs w st inp).mem =
      pushBounded 1000 st.mem (mkRow inp.timestamp res sp w) ∧
    latest (routeStepFs w st inp).mem = some (mkRow inp.timestamp res sp w) ∧
    (routeStepFs w st inp).file = st.file ∧
    (routeStepFs w st inp).mem =
      (routeStepFs w st { inp with csvOk := true }).mem := by
  refine ⟨?_, ?_, ?_, ?_⟩
  · simp [routeStepFs, hf]
  · simp only [routeStepFs, hf]
    exact pushBounded_getLast? 1000 st.mem _ (by omega)
  · simp [routeStepFs, hf, hcsv]
  · simp [routeStepFs, hf]

/-- Witness for the C8 theorem: a failing append on a fresh route. -/
theorem persist_failure_keeps_memory_append_witness :
    (routeStepFs none { mem := [], file := some [csvHeader] }
        { crossingName := "c", routeName := "A",
          fetch := some (⟨15, 9, 0⟩, none), timestamp := "t2",
          csvOk := false }).mem =
      pushBounded 1000 [] (mkRow "t2" ⟨15, 9, 0⟩ none none) ∧
    latest (routeStepFs none { mem := [], file := some [csvHeader] }
        { crossingName := "c", routeName := "A",
          fetch := some (⟨15, 9, 0⟩, none), timestamp := "t2",
          csvOk := false }).mem = some (mkRow "t2" ⟨15, 9, 0⟩ none none) ∧
    (routeStepFs none { mem := [], file := some [csvHeader] }
        { crossingName := "c", routeName := "A",
          fetch := some (⟨15, 9, 0⟩, none), timestamp := "t2",
          csvOk := false }).file = some [csvHeader] ∧
    (routeStepFs none { mem := [], file := some [csvHeader] }
        { crossingName := "c", routeName := "A",
          fetch := some (⟨15, 9, 0⟩, none), timestamp := "t2",
          csvOk := false }).mem =
      (routeStepFs none { mem := [], file := some [csvHeader] }
        { crossingName := "c", routeName := "A",
          fetch := some (⟨15, 9, 0⟩, none), timestamp := "t2",
          csvOk := true }).mem :=
  persist_failure_keeps_memory_append none
    { mem := [], file := some [csvHeader] }
    { crossingName := "c", routeName := "A",
      fetch := some (⟨15, 9, 0⟩, none), timestamp := "t2", csvOk := false }
    ⟨15, 9, 0⟩ none rfl rfl

/-- The CSV line produced by a successful poll. -/
def pollLine (w : Option Weather) (inp : RoutePollInput) : String :=
  match inp.fetch with
  | some (res, sp) =>
      csvRowLine inp.crossingName inp.routeName (mkRow inp.timestamp res sp w)
  | none => ""

lemma runRoutePolls_file (polls : List (Option Weather × RoutePollInput))
    (hsucc : ∀ p ∈ polls, p.2.fetch.isSome = true ∧ p.2.csvOk = true) :
    ∀ (st : RouteState) (ls : List String), st.file = some ls →
      (runRoutePolls st polls).file =
        some (ls ++ polls.map fun p => pollLine p.1 p.2) := by
  induction polls with
  | nil =>
      intro st ls hfile
      simpa [runRoutePolls] using hfile
  | cons p ps ih =>
      intro st ls hfile
      obtain ⟨hfetch, hcsv⟩ := hsucc p (List.mem_cons_self p ps)
      obtain ⟨⟨res, sp⟩, hres⟩ := Option.isSome_iff_exists.mp hfetch
      have hstep : (routeStepFs p.1 st p.2).file =
          some (ls ++ [pollLine p.1 p.2]) := by
        simp [routeStepFs, hres, hcsv, appendLine, hfile, pollLine]
      have : runRoutePolls st (p :: ps) =
          runRoutePolls (routeStepFs p.1 st p.2) ps := rfl
      rw [this, ih (fun q hq => hsucc q (List.mem_cons_of_mem p hq))
        (routeStepFs p.1 st p.2) (ls ++ [pollLine p.1 p.2]) hstep]
      simp

/-- C6: starting from a nonexistent log file, `ensureCsv` writes the
header once, and after `N` successful polls the durable log holds exactly
the header line followed by `N` data rows; `ensureCsv` never rewrites an
existing file, and the durable log evolves independently of the in-memory
sequence, so in-memory eviction never removes log content. -/
theorem durable_log_rows (polls : List (Option Weather × RoutePollInput))
    (hsucc : ∀ p ∈ polls, p.2.fetch.isSome = true ∧ p.2.csvOk = true) :
    (runRoutePolls { mem := [], file := ensureCsv none } polls).file =
      some (csvHeader :: (polls.map fun p => pollLine p.1 p.2)) ∧
    (polls.map fun p => pollLine p.1 p.2).length = polls.length ∧
    (∀ ls : List String, ensureCsv (some ls) = some ls) ∧
    (∀ (w : Option Weather) (st st' : RouteState) (inp : RoutePollInput),
      st.file = st'.file →
      (routeStepFs w st inp).file = (routeStepFs w st' inp).file) := by
  refine ⟨?_, List.length_map _ _, fun ls => rfl, ?_⟩
  · have := runRoutePolls_file polls hsucc
      { mem := [], file := ensureCsv none } [csvHeader] rfl
    simpa using this
  · intro w st st' inp hfile
    cases hfetch : inp.fetch with
    | none => simp [routeStepFs, hfetch, hfile]
    | some v => simp [routeStepFs, hfetch, hfile]

/-- Witness for the C6 theorem: two successful polls yield a header line
plus two data rows. -/
theorem durable_log_rows_witness :
    (runRoutePolls { mem := [], file := ensureCsv none }
        [(none, { crossingName := "c", routeName := "A",
                  fetch := some (⟨12, 9, 0⟩, none), timestamp := "t1",
                  csvOk := true }),
         (none, { crossingName := "c", routeName := "A",
                  fetch := some (⟨10, 9, 0⟩, none), timestamp := "t2",
                  csvOk := true })]).file =
      some (csvHeader ::
        ([(none, { crossingName := "c", routeName := "A",
                   fetch := some (⟨12, 9, 0⟩, none), timestamp := "t1",
                   csvOk := true }),
          (none, { crossingName := "c", routeName := "A",
                   fetch := some (⟨10, 9, 0⟩, none), timestamp := "t2",
                   csvOk := true })].map
          fun p => pollLine p.1 p.2)) :=
  (durable_log_rows _ (by
    intro p hp
    simp only [List.mem_cons, List.not_mem_nil, or_false] at hp
    rcases hp with h | h <;> subst h <;> exact ⟨rfl, rfl⟩)).1

/-- `weatherDescription(code)` from the v3 monitor. -/
def weatherDescription (code : Nat) : String :=
  if code = 0 then "Clear sky"
  else if code ≤ 2 then "Partly cloudy"
  else if code = 3 then "Overcast"
  else if code ≤ 49 then "Foggy"
  else if code ≤ 59 then "Drizzle"
  else if code ≤ 69 then "Rain"
  else if code ≤ 79 then "Snow"
  else if code ≤ 82 then "Rain showers"
  else if code ≤ 86 then "Snow showers"
  else if code ≤ 99 then "Thunderstorm"
  else "Unknown"

/-- `weatherIcon(code)` from the v3 monitor. -/
def weatherIcon (code : Nat) : String :=
  if code = 0 then "☀️"
  else if code ≤ 2 then "⛅"
  else if code = 3 then "☁️"
  else if code ≤ 49 then "🌫️"
  else if code ≤ 69 then "🌧️"
  else if code ≤ 79 then "❄️"
  else if code ≤ 82 then "🌦️"
  else if code ≤ 86 then "🌨️"
  else if code ≤ 99 then "⛈️"
  else "🌡️"

/-- The `current` object of the weather provider's payload. -/
structure OpenMeteoCurrent where
  temperature_2m : ℚ
  precipitation : ℚ
  weather_code : Nat
  wind_speed_10m : ℚ
deriving DecidableEq, Repr

/-- The snapshot assigned to `weatherCache` from a successful payload. -/
def mkWeather (c : OpenMeteoCurrent) : Weather :=
  { tempC := jsRound c.temperature_2m
    precipitation := c.precipitation
    windKmh := jsRound c.wind_speed_10m
    condition := weatherDescription c.weather_code
    icon := weatherIcon c.weather_code }

/-- The module state of the weather cache: the variables `weatherCache`
(initially null) and `weatherLastFetch` (initially 0), times in
milliseconds since the epoch. -/
structure WeatherState where
  weatherCache : Option Weather
  weatherLastFetch : Nat
deriving DecidableEq, Repr

/-- The cache TTL, `10 * 60 * 1000` milliseconds. -/
def WEATHER_TTL_MS : Nat := 10 * 60 * 1000

/-- `fetchWeather()`: returns the cached snapshot when the cache is
populated and younger than the TTL; otherwise performs one upstream call
(`resp = none` models a failed call or malformed payload, whose exception
is caught and leaves the cache untouched).  The result triple is the
returned snapshot, the new cache state, and whether an upstream call was
made. -/
def fetchWeather (now : Nat) (resp : Option OpenMeteoCurrent)
    (st : WeatherState) : Option Weather × WeatherState × Bool :=
  if st.weatherCache.isSome ∧ now - st.weatherLastFetch < WEATHER_TTL_MS then
    (st.weatherCache, st, false)
  else
    match resp with
    | some c =>
        let w := mkWeather c
        (some w, { weatherCache := some w, weatherLastFetch := now }, true)
    | none => (none, st, true)

/-- C7: a first fetch at `t1` performs the single upstream call and caches
the snapshot; a second fetch within the TTL returns the identical cached
snapshot without calling upstream (so the pair makes exactly one upstream
call); a fetch after the TTL has expired calls upstream again; and any
cache hit returns the cached snapshot unconditionally, whatever the
pending response would be. -/
theorem weather_cache_ttl (t1 t2 t3 : Nat) (c : OpenMeteoCurrent)
    (resp2 resp3 : Option OpenMeteoCurrent) (st : WeatherState)
    (w : Weather) (now : Nat) (resp : Option OpenMeteoCurrent)
    (h12 : t2 - t1 < WEATHER_TTL_MS) (h13 : WEATHER_TTL_MS ≤ t3 - t1)
    (hhit : st.weatherCache = some w)
    (hfresh : now - st.weatherLastFetch < WEATHER_TTL_MS) :
    fetchWeather t1 (some c) { weatherCache := none, weatherLastFetch := 0 } =
      (some (mkWeather c),
        { weatherCache := some (mkWeather c), weatherLastFetch := t1 }, true) ∧
    fetchWeather t2 resp2
        { weatherCache := some (mkWeather c), weatherLastFetch := t1 } =
      (some (mkWeather c),
        { weatherCache := some (mkWeather c), weatherLastFetch := t1 }, false) ∧
    (fetchWeather t3 resp3
        { weatherCache := some (mkWeather c), weatherLastFetch := t1 }).2.2 =
      true ∧
    fetchWeather now resp st = (some w, st, false) := by
  refine ⟨?_, ?_, ?_, ?_⟩
  · simp [fetchWeather]
  · rw [fetchWeather.eq_def, if_pos]
    exact ⟨rfl, h12⟩
  · rw [fetchWeather.eq_def, if_neg]
    · cases resp3 <;> rfl
    · intro hcon
      have hlt : t3 - t1 < WEATHER_TTL_MS := hcon.2
      omega
  · rw [fetchWeather.eq_def, if_pos]
    · rw [hhit]
    · exact ⟨by rw [hhit]; rfl, hfresh⟩

/-- Witness for the C7 theorem: fetches at 0 ms, 5 min and 20 min with a
clear-sky payload. -/
theorem weather_cache_ttl_witness :
    fetchWeather 0 (some ⟨21, 0, 0, 8⟩)
        { weatherCache := none, weatherLastFetch := 0 } =
      (some (mkWeather ⟨21, 0, 0, 8⟩),
        { weatherCache := some (mkWeather ⟨21, 0, 0, 8⟩),
          weatherLastFetch := 0 }, true) ∧
    fetchWeather 300000 none
        { weatherCache := some (mkWeather ⟨21, 0, 0, 8⟩),
          weatherLastFetch := 0 } =
      (some (mkWeather ⟨21, 0, 0, 8⟩),
        { weatherCache := some (mkWeather ⟨21, 0, 0, 8⟩),
          weatherLastFetch := 0 }, false) ∧
    (fetchWeather 1200000 (some ⟨22, 0, 3, 9⟩)
        { weatherCache := some (mkWeather ⟨21, 0, 0, 8⟩),
          weatherLastFetch := 0 }).2.2 = true ∧
    fetchWeather 300000 none
        { weatherCache := some (mkWeather ⟨21, 0, 0, 8⟩),
          weatherLastFetch := 0 } =
      (some (mkWeather ⟨21, 0, 0, 8⟩),
        { weatherCache := some (mkWeather ⟨21, 0, 0, 8⟩),
          weatherLastFetch := 0 }, false) :=
  weather_cache_ttl 0 300000 1200000 ⟨21, 0, 0, 8⟩ none (some ⟨22, 0, 3, 9⟩)
    { weatherCache := some (mkWeather ⟨21, 0, 0, 8⟩), weatherLastFetch := 0 }
    (mkWeather ⟨21, 0, 0, 8⟩) 300000 none (by decide) (by decide) rfl
    (by decide)

/-- C9: the worst-severity aggregate of `buildMainPage` is the maximum of
the two levels under the order LOW < MODERATE < HIGH; on [LOW, HIGH] it is
HIGH and on [LOW, MODERATE] it is MODERATE. -/
theorem worstLevel_is_max :
    worstLevel .LOW .HIGH = some .HIGH ∧
    worstLevel .LOW .MODERATE = some .MODERATE ∧
    ∀ a b : Severity,
      worstLevel a b = some (if sevRank a ≤ sevRank b then b else a) := by
  decide
